import Mathlib

/-!
Verification of the retry-policy core of gapic-generator-cpp
(src/gax/retry_policy.h) against its specification.

The header defines two concrete retry policies behind an abstract
`RetryPolicy` interface:

* `LimitedErrorCountRetryPolicy` (the spec's `CountLimitedPolicy`): keeps a
  mutable `failure_count_` and an immutable `max_failures_`; `OnFailure`
  evaluates `!RetryablePolicy::IsPermanentFailure(status) &&
  (failure_count_++) < max_failures_`, so the post-increment happens only
  when the permanence check does not short-circuit.
* `LimitedDurationRetryPolicy` (the spec's `DurationLimitedPolicy`): stores
  an immutable `max_duration_` and a `deadline_` computed at construction as
  `max_duration_ + Clock::now()`; `OnFailure` evaluates
  `!RetryablePolicy::IsPermanentFailure(status) && Clock::now() < deadline_`.

Both copy constructors delegate to the value constructor with the original's
limit, so `clone()` (which copy-constructs) resets progress state.

The embedding makes the implicit state explicit: the C++ member mutation in
`OnFailure` becomes a returned post-state, and the impure `Clock::now()`
becomes an explicit `now : Int` argument (timestamps and durations are
integers, e.g. milliseconds).  The external `RetryablePolicy` classifier is a
parameter `isPermanentFailure : σ → Bool` over an opaque status type `σ`.
-/

namespace GoogleGax

/-- State of `LimitedErrorCountRetryPolicy`: the mutable counter
`failure_count_` (initialised to 0) and the `const` limit `max_failures_`.
Both members are C++ `int`; they are modelled as unbounded integers. -/
structure LimitedErrorCountRetryPolicy where
  failure_count_ : Int
  max_failures_ : Int
  deriving DecidableEq

/-- Value constructor `LimitedErrorCountRetryPolicy(int max_failures)`:
initialises `failure_count_(0), max_failures_(max_failures)`.  The source
performs no validation of `max_failures`. -/
def LimitedErrorCountRetryPolicy.make (max_failures : Int) :
    LimitedErrorCountRetryPolicy :=
  { failure_count_ := 0, max_failures_ := max_failures }

/-- Method `LimitedErrorCountRetryPolicy::OnFailure`, whose body is
`return (!RetryablePolicy::IsPermanentFailure(status) && (failure_count_++) < max_failures_);`.
Because `&&` short-circuits, the post-increment of `failure_count_` runs only
when the status is not permanent; the comparison uses the pre-increment
value.  The returned pair is (result, post-state). -/
def LimitedErrorCountRetryPolicy.OnFailure {σ : Type}
    (isPermanentFailure : σ → Bool) (p : LimitedErrorCountRetryPolicy)
    (status : σ) : Bool × LimitedErrorCountRetryPolicy :=
  if isPermanentFailure status then
    (false, p)
  else
    (decide (p.failure_count_ < p.max_failures_),
     { p with failure_count_ := p.failure_count_ + 1 })

/-- Method `LimitedErrorCountRetryPolicy::clone`: copy-constructs, and the
copy constructor delegates to the value constructor with
`rhs.max_failures_`, so the clone starts with `failure_count_ = 0`. -/
def LimitedErrorCountRetryPolicy.clone (p : LimitedErrorCountRetryPolicy) :
    LimitedErrorCountRetryPolicy :=
  LimitedErrorCountRetryPolicy.make p.max_failures_

/-- Driver for a sequence of `OnFailure` calls on a count-limited policy:
feeds the statuses in order, threading the state, and collects the returned
booleans together with the final state. -/
def runOnFailures {σ : Type} (isPermanentFailure : σ → Bool)
    (p : LimitedErrorCountRetryPolicy) :
    List σ → List Bool × LimitedErrorCountRetryPolicy
  | [] => ([], p)
  | s :: rest =>
    let r := LimitedErrorCountRetryPolicy.OnFailure isPermanentFailure p s
    let rs := runOnFailures isPermanentFailure r.2 rest
    (r.1 :: rs.1, rs.2)

/-- State of `LimitedDurationRetryPolicy`: the `const` members
`max_duration_` and `deadline_`.  Durations and time points are modelled as
integers (milliseconds). -/
structure LimitedDurationRetryPolicy where
  max_duration_ : Int
  deadline_ : Int
  deriving DecidableEq

/-- Value constructor `LimitedDurationRetryPolicy(duration_t max_duration)`:
initialises `max_duration_(max_duration), deadline_(max_duration_ + Clock::now())`.
The clock read at construction is the explicit argument `now`. -/
def LimitedDurationRetryPolicy.make (max_duration now : Int) :
    LimitedDurationRetryPolicy :=
  { max_duration_ := max_duration, deadline_ := max_duration + now }

/-- Method `LimitedDurationRetryPolicy::OnFailure`, whose body is
`return (!RetryablePolicy::IsPermanentFailure(status) && Clock::now() < deadline_);`.
Both members are `const`, so the post-state is the unchanged policy.  The
clock read is the explicit argument `now`. -/
def LimitedDurationRetryPolicy.OnFailure {σ : Type}
    (isPermanentFailure : σ → Bool) (p : LimitedDurationRetryPolicy)
    (now : Int) (status : σ) : Bool × LimitedDurationRetryPolicy :=
  (!isPermanentFailure status && decide (now < p.deadline_), p)

/-- Method `LimitedDurationRetryPolicy::clone`: copy-constructs, and the copy
constructor delegates to the value constructor with `rhs.max_duration_`, so
the clone's deadline is recomputed from the clock at clone time (`now`). -/
def LimitedDurationRetryPolicy.clone (p : LimitedDurationRetryPolicy)
    (now : Int) : LimitedDurationRetryPolicy :=
  LimitedDurationRetryPolicy.make p.max_duration_ now

/-- Helper: running a list of transient-classified statuses from counter
state `c` yields the booleans `decide (c + i < m)` for `i` ranging over call
indices, and leaves the counter at `c + length`. -/
theorem runOnFailures_transient {σ : Type} (isPermanentFailure : σ → Bool)
    (c m : Int) (l : List σ)
    (h : ∀ s ∈ l, isPermanentFailure s = false) :
    runOnFailures isPermanentFailure ⟨c, m⟩ l =
      ((List.range l.length).map (fun i : Nat => decide (c + (i : Int) < m)),
       ⟨c + l.length, m⟩) := by
  induction l generalizing c with
  | nil => simp [runOnFailures]
  | cons s rest ih =>
    have hs : isPermanentFailure s = false := h s (by simp)
    have hrest : ∀ x ∈ rest, isPermanentFailure x = false := by
      intro x hx
      exact h x (by simp [hx])
    have hstep :
        LimitedErrorCountRetryPolicy.OnFailure isPermanentFailure ⟨c, m⟩ s =
          (decide (c < m), ⟨c + 1, m⟩) := by
      simp [LimitedErrorCountRetryPolicy.OnFailure, hs]
    simp only [runOnFailures, hstep, ih (c + 1) hrest]
    refine Prod.ext ?_ ?_
    · rw [List.length_cons, List.range_succ_eq_map, List.map_cons,
        List.map_map]
      refine congrArg₂ List.cons ?_ ?_
      · rw [decide_eq_decide]
        omega
      · refine List.map_congr_left ?_
        intro i _
        show decide (c + 1 + (i : Int) < m) =
          decide (c + ((Nat.succ i : Nat) : Int) < m)
        rw [decide_eq_decide]
        push_cast
        omega
    · simp only [List.length_cons]
      refine congrArg (fun z => LimitedErrorCountRetryPolicy.mk z m) ?_
      push_cast
      ring

/-- Helper: from any non-negative counter state, a policy with a negative
limit answers `false` to every call of any failure sequence. -/
theorem runOnFailures_neg_max_all_false {σ : Type}
    (isPermanentFailure : σ → Bool) (c m : Int) (hc : 0 ≤ c) (hm : m < 0)
    (l : List σ) :
    ∀ b ∈ (runOnFailures isPermanentFailure ⟨c, m⟩ l).1, b = false := by
  induction l generalizing c with
  | nil => simp [runOnFailures]
  | cons s rest ih =>
    by_cases hs : isPermanentFailure s = true
    · simp only [runOnFailures, LimitedErrorCountRetryPolicy.OnFailure, hs,
        if_true]
      intro b hb
      rcases List.mem_cons.mp hb with h1 | h2
      · exact h1
      · exact ih c hc b h2
    · have hs' : isPermanentFailure s = false := by
        revert hs
        cases isPermanentFailure s <;> simp
      simp only [runOnFailures, LimitedErrorCountRetryPolicy.OnFailure, hs',
        Bool.false_eq_true, if_false]
      intro b hb
      rcases List.mem_cons.mp hb with h1 | h2
      · rw [h1]
        simp only [decide_eq_false_iff_not]
        omega
      · exact ih (c + 1) (by omega) b h2

/-- C1: for every status classified permanent by the failure classifier,
`OnFailure` returns `false` for both `LimitedErrorCountRetryPolicy` and
`LimitedDurationRetryPolicy`, regardless of the current failure count,
remaining budget, or current time relative to the deadline. -/
theorem C1_permanent_never_retries {σ : Type}
    (isPermanentFailure : σ → Bool) (status : σ)
    (hperm : isPermanentFailure status = true)
    (p : LimitedErrorCountRetryPolicy) (q : LimitedDurationRetryPolicy)
    (now : Int) :
    (LimitedErrorCountRetryPolicy.OnFailure isPermanentFailure p status).1 =
      false ∧
    (LimitedDurationRetryPolicy.OnFailure isPermanentFailure q now
      status).1 = false := by
  constructor
  · simp [LimitedErrorCountRetryPolicy.OnFailure, hperm]
  · simp [LimitedDurationRetryPolicy.OnFailure, hperm]

/-- Witness for C1 at the concrete classifier `id` on `Bool`, the permanent
status `true`, count state (2, 5), duration state from `make 100 0`, and
clock reading 10. -/
theorem C1_witness :
    id (true : Bool) = true ∧
    (LimitedErrorCountRetryPolicy.OnFailure id
      (LimitedErrorCountRetryPolicy.make 5) true).1 = false ∧
    (LimitedDurationRetryPolicy.OnFailure id
      (LimitedDurationRetryPolicy.make 100 0) 10 true).1 = false :=
  ⟨rfl,
   (C1_permanent_never_retries id true rfl
      (LimitedErrorCountRetryPolicy.make 5)
      (LimitedDurationRetryPolicy.make 100 0) 10).1,
   (C1_permanent_never_retries id true rfl
      (LimitedErrorCountRetryPolicy.make 5)
      (LimitedDurationRetryPolicy.make 100 0) 10).2⟩

/-- C2: feeding any sequence of transient-classified failures to a fresh
`LimitedErrorCountRetryPolicy.make m` with `m ≥ 0` returns `true` exactly
for the call indices `i < m` (so the first `m` calls return `true` and every
later call returns `false`); in particular with `m = 0` every transient
failure returns `false`. -/
theorem C2_count_sequence {σ : Type} (isPermanentFailure : σ → Bool)
    (m : Int) (hm : 0 ≤ m) (l : List σ)
    (htrans : ∀ s ∈ l, isPermanentFailure s = false) :
    (runOnFailures isPermanentFailure (LimitedErrorCountRetryPolicy.make m)
        l).1 =
      (List.range l.length).map (fun i : Nat => decide ((i : Int) < m)) ∧
    ∀ b ∈ (runOnFailures isPermanentFailure
        (LimitedErrorCountRetryPolicy.make 0) l).1, b = false := by
  constructor
  · have h := runOnFailures_transient isPermanentFailure 0 m l htrans
    rw [LimitedErrorCountRetryPolicy.make, h]
    refine List.map_congr_left ?_
    intro i _
    rw [decide_eq_decide]
    omega
  · intro b hb
    have h := runOnFailures_transient isPermanentFailure 0 0 l htrans
    rw [LimitedErrorCountRetryPolicy.make, h] at hb
    rcases List.mem_map.mp hb with ⟨i, _, hi⟩
    rw [← hi, decide_eq_false_iff_not]
    omega

/-- Witness for C2 at `m = 2` and three transient failures: the results are
`[true, true, false]`, and with `m = 0` all results are `false`. -/
theorem C2_witness :
    (0 : Int) ≤ 2 ∧
    (∀ s ∈ [false, false, false], id s = false) ∧
    (runOnFailures id (LimitedErrorCountRetryPolicy.make 2)
      [false, false, false]).1 = [true, true, false] ∧
    ∀ b ∈ (runOnFailures id (LimitedErrorCountRetryPolicy.make 0)
      [false, false, false]).1, b = false := by
  have h := C2_count_sequence id 2 (by decide) [false, false, false]
    (by decide)
  exact ⟨by decide, by decide, by rw [h.1]; decide, h.2⟩

/-- C3: for a `LimitedDurationRetryPolicy` constructed with duration `d` at
time `t0`, `OnFailure` on a transient-classified status at clock time `now`
returns `true` iff `now` is strictly before the deadline `t0 + d`;
concretely, with `d = 100` a transient failure at `t0 + 50` returns `true`
and at `t0 + 150` returns `false`. -/
theorem C3_duration_window {σ : Type} (isPermanentFailure : σ → Bool)
    (status : σ) (htrans : isPermanentFailure status = false)
    (d t0 now : Int) :
    ((LimitedDurationRetryPolicy.OnFailure isPermanentFailure
        (LimitedDurationRetryPolicy.make d t0) now status).1 = true ↔
      now < t0 + d) ∧
    (LimitedDurationRetryPolicy.OnFailure isPermanentFailure
      (LimitedDurationRetryPolicy.make 100 t0) (t0 + 50) status).1 = true ∧
    (LimitedDurationRetryPolicy.OnFailure isPermanentFailure
      (LimitedDurationRetryPolicy.make 100 t0) (t0 + 150) status).1 =
      false := by
  refine ⟨?_, ?_, ?_⟩
  · simp only [LimitedDurationRetryPolicy.OnFailure,
      LimitedDurationRetryPolicy.make, htrans, Bool.not_false,
      Bool.true_and, decide_eq_true_eq]
    omega
  · simp only [LimitedDurationRetryPolicy.OnFailure,
      LimitedDurationRetryPolicy.make, htrans, Bool.not_false,
      Bool.true_and, decide_eq_true_eq]
    omega
  · simp only [LimitedDurationRetryPolicy.OnFailure,
      LimitedDurationRetryPolicy.make, htrans, Bool.not_false,
      Bool.true_and, decide_eq_false_iff_not]
    omega

/-- Witness for C3 at the classifier `id` on `Bool`, the transient status
`false`, duration 100, construction time 0 and clock reading 7. -/
theorem C3_witness :
    id (false : Bool) = false ∧
    (((LimitedDurationRetryPolicy.OnFailure id
        (LimitedDurationRetryPolicy.make 100 0) 7 false).1 = true ↔
      (7 : Int) < 0 + 100) ∧
    (LimitedDurationRetryPolicy.OnFailure id
      (LimitedDurationRetryPolicy.make 100 0) (0 + 50) false).1 = true ∧
    (LimitedDurationRetryPolicy.OnFailure id
      (LimitedDurationRetryPolicy.make 100 0) (0 + 150) false).1 = false) :=
  ⟨rfl, C3_duration_window id false rfl 100 0 7⟩

/-- C4 counterexample: a fresh `LimitedErrorCountRetryPolicy.make 3` fed the
sequence [transient, permanent, transient] does not produce
`[true, false, false]` (the permanent failure does not consume budget, so
the third call still succeeds). -/
theorem C4_counterexample :
    (runOnFailures id (LimitedErrorCountRetryPolicy.make 3)
      [false, true, false]).1 ≠ [true, false, false] := by
  decide

/-- C4 amended: a fresh `LimitedErrorCountRetryPolicy.make 3` fed the
sequence [transient, permanent, transient] produces `[true, false, true]`:
the permanent failure returns `false` without incrementing the counter, so
the third call compares 1 < 3 and returns `true`. -/
theorem C4_amended :
    (runOnFailures id (LimitedErrorCountRetryPolicy.make 3)
      [false, true, false]).1 = [true, false, true] := by
  decide

/-- C5: a call of `OnFailure` on a `LimitedErrorCountRetryPolicy` with a
permanent-classified status leaves the whole state (in particular
`failure_count_`) unchanged, and increments `failure_count_` by exactly 1
(changing nothing else) exactly when the status is classified transient. -/
theorem C5_count_frame {σ : Type} (isPermanentFailure : σ → Bool)
    (p : LimitedErrorCountRetryPolicy) (status : σ) :
    (isPermanentFailure status = true →
      (LimitedErrorCountRetryPolicy.OnFailure isPermanentFailure p
        status).2 = p) ∧
    (isPermanentFailure status = false →
      (LimitedErrorCountRetryPolicy.OnFailure isPermanentFailure p
        status).2 =
        { p with failure_count_ := p.failure_count_ + 1 }) := by
  constructor
  · intro hperm
    simp [LimitedErrorCountRetryPolicy.OnFailure, hperm]
  · intro htrans
    simp [LimitedErrorCountRetryPolicy.OnFailure, htrans]

/-- Witness for C5 at the classifier `id` on `Bool` and the state (2, 5):
the permanent status `true` leaves the state at (2, 5) and the transient
status `false` moves it to (3, 5). -/
theorem C5_witness :
    (LimitedErrorCountRetryPolicy.OnFailure id
      (⟨2, 5⟩ : LimitedErrorCountRetryPolicy) true).2 =
      (⟨2, 5⟩ : LimitedErrorCountRetryPolicy) ∧
    (LimitedErrorCountRetryPolicy.OnFailure id
      (⟨2, 5⟩ : LimitedErrorCountRetryPolicy) false).2 =
      (⟨3, 5⟩ : LimitedErrorCountRetryPolicy) :=
  ⟨(C5_count_frame id ⟨2, 5⟩ true).1 rfl,
   (C5_count_frame id ⟨2, 5⟩ false).2 rfl⟩

/-- C6: `clone` on any `LimitedErrorCountRetryPolicy`, whatever the number
of failures already recorded, yields a policy with the same `max_failures_`
and `failure_count_` reset to 0, whose `OnFailure` behaviour coincides with
that of a freshly constructed policy with the same limit. -/
theorem C6_count_clone_resets {σ : Type} (isPermanentFailure : σ → Bool)
    (p : LimitedErrorCountRetryPolicy) :
    p.clone.max_failures_ = p.max_failures_ ∧
    p.clone.failure_count_ = 0 ∧
    ∀ status : σ,
      LimitedErrorCountRetryPolicy.OnFailure isPermanentFailure p.clone
        status =
      LimitedErrorCountRetryPolicy.OnFailure isPermanentFailure
        (LimitedErrorCountRetryPolicy.make p.max_failures_) status :=
  ⟨rfl, rfl, fun _ => rfl⟩

/-- C7: `clone` on a `LimitedDurationRetryPolicy` at clock time `now` keeps
`max_duration_` and recomputes the deadline as `max_duration_ + now`; it is
not a copy of the original's deadline, as the concrete instance
(duration 100, built at time 0, cloned at time 50) shows. -/
theorem C7_duration_clone_recomputes (p : LimitedDurationRetryPolicy)
    (now : Int) :
    (p.clone now).max_duration_ = p.max_duration_ ∧
    (p.clone now).deadline_ = p.max_duration_ + now ∧
    ((LimitedDurationRetryPolicy.make 100 0).clone 50).deadline_ ≠
      (LimitedDurationRetryPolicy.make 100 0).deadline_ :=
  ⟨rfl, rfl, by decide⟩

/-- C8: the deadline of a `LimitedDurationRetryPolicy` constructed with
duration `d` at time `t` equals `t + d`, and no later `OnFailure` call
changes the state of the instance (both members are `const`); `clone`
builds a separate instance and takes the original only as an unmodified
input. -/
theorem C8_deadline_fixed {σ : Type} (isPermanentFailure : σ → Bool)
    (d t : Int) :
    (LimitedDurationRetryPolicy.make d t).deadline_ = t + d ∧
    ∀ (p : LimitedDurationRetryPolicy) (now : Int) (status : σ),
      (LimitedDurationRetryPolicy.OnFailure isPermanentFailure p now
        status).2 = p := by
  constructor
  · show d + t = t + d
    ring
  · intro p now status
    rfl

/-- C9 counterexample: constructing a `LimitedErrorCountRetryPolicy` with
the negative limit -1 is not rejected and not clamped: it succeeds and
stores -1 unchanged, and the resulting policy is usable (its first
`OnFailure` on a transient status returns `false`). -/
theorem C9_counterexample :
    LimitedErrorCountRetryPolicy.make (-1) =
      ({ failure_count_ := 0, max_failures_ := -1 } :
        LimitedErrorCountRetryPolicy) ∧
    (LimitedErrorCountRetryPolicy.OnFailure id
      (LimitedErrorCountRetryPolicy.make (-1)) false).1 = false := by
  exact ⟨rfl, by decide⟩

/-- C9 amended: constructing a `LimitedErrorCountRetryPolicy` with a
negative `max_failures` succeeds with no validation or clamping (the
negative value is stored as given, the counter starts at 0), and the first
`OnFailure` call of the resulting policy returns `false` for every status:
the policy behaves as if zero retries were permitted. -/
theorem C9_amended {σ : Type} (isPermanentFailure : σ → Bool)
    (m : Int) (hm : m < 0) (status : σ) :
    (LimitedErrorCountRetryPolicy.make m).failure_count_ = 0 ∧
    (LimitedErrorCountRetryPolicy.make m).max_failures_ = m ∧
    (LimitedErrorCountRetryPolicy.OnFailure isPermanentFailure
      (LimitedErrorCountRetryPolicy.make m) status).1 = false := by
  refine ⟨rfl, rfl, ?_⟩
  by_cases hs : isPermanentFailure status = true
  · simp [LimitedErrorCountRetryPolicy.OnFailure, hs]
  · have hs' : isPermanentFailure status = false := by
      revert hs
      cases isPermanentFailure status <;> simp
    simp only [LimitedErrorCountRetryPolicy.OnFailure,
      LimitedErrorCountRetryPolicy.make, hs', Bool.false_eq_true, if_false,
      decide_eq_false_iff_not]
    omega

/-- Witness for the amended C9 at the limit -1 and the transient status
`false` under the classifier `id` on `Bool`. -/
theorem C9_witness :
    (-1 : Int) < 0 ∧
    ((LimitedErrorCountRetryPolicy.make (-1)).failure_count_ = 0 ∧
    (LimitedErrorCountRetryPolicy.make (-1)).max_failures_ = -1 ∧
    (LimitedErrorCountRetryPolicy.OnFailure id
      (LimitedErrorCountRetryPolicy.make (-1)) false).1 = false) :=
  ⟨by decide, C9_amended id (-1) (by decide) false⟩

/-- C10: for every negative `max_failures`, construction of a
`LimitedErrorCountRetryPolicy` succeeds (counter 0, limit stored as given)
and every subsequent `OnFailure` call — over any sequence of permanent or
transient statuses — returns `false`, exactly like a policy permitting zero
retries. -/
theorem C10_negative_limit_never_retries {σ : Type}
    (isPermanentFailure : σ → Bool) (m : Int) (hm : m < 0) (l : List σ) :
    (LimitedErrorCountRetryPolicy.make m).failure_count_ = 0 ∧
    (LimitedErrorCountRetryPolicy.make m).max_failures_ = m ∧
    ∀ b ∈ (runOnFailures isPermanentFailure
      (LimitedErrorCountRetryPolicy.make m) l).1, b = false :=
  ⟨rfl, rfl,
   runOnFailures_neg_max_all_false isPermanentFailure 0 m (by omega) hm l⟩

/-- Witness for C10 at the limit -2 and the mixed sequence
[transient, permanent, transient] under the classifier `id` on `Bool`. -/
theorem C10_witness :
    (-2 : Int) < 0 ∧
    ∀ b ∈ (runOnFailures id (LimitedErrorCountRetryPolicy.make (-2))
      [false, true, false]).1, b = false :=
  ⟨by decide,
   (C10_negative_limit_never_retries id (-2) (by decide)
      [false, true, false]).2.2⟩

end GoogleGax
